import Mathlib

/-!
Verification of `edc_model_wrapper/wrappers/model_wrapper.py`.

The module wraps a Django ORM model instance: it validates the instance
against a configured model class, resolves "next" and "cancel" navigation
URLs through the `edc_dashboard.url_names` registry, copies keyword
arguments and model-field values onto the wrapper, marks the instance as
wrapped (disabling its `save`), and derives an `href` of the form
`<absolute_url>?<querystring>`.

Shallow embedding conventions:
* A model instance (`ModelObj`) is a record of the attributes the wrapper
  reads or writes: `id`, `wrapped`, `save`, the class and its ancestry
  (for `isinstance`), `_meta` data, `get_absolute_url()` and
  `admin_url_name`.
* Python truthiness is made explicit (`pyTruthyId`, `pyTruthyWrapped`,
  `pyTruthyStrOpt`); `x or y` on optional strings/lists is `pyOrStr`,
  `pyOrOptStr`, `pyOrList`.
* Exceptions become error values (`WrapperError`, `HistoryUrlError`).
* External collaborators and repository modules missing from the sources
  (`edc_dashboard.url_names`, `django.urls.reverse`, `Fields`,
  `NextUrlParser`, `Keywords`) are an environment `Env` of arbitrary
  functions, so every theorem quantifies over their behaviour.
* Extra keyword arguments are modelled as string-valued. `wrap_me_with`
  does `setattr(self, key, value)`, so a key naming one of the wrapper's
  non-string attributes would make a later constructor step fail in
  Python (calling or unpacking a string); such calls are modelled as the
  `typeConfusion` error and no claim's verdict rests on them.
-/

deriving instance DecidableEq for Except

/-- Metadata of a Django model class: the `_meta` attributes the wrapper
reads (`object_name`, `label_lower`, `app_label`, `model_name`). -/
structure MetaInfo where
  object_name : String
  label_lower : String
  app_label : String
  model_name : String
deriving DecidableEq, Repr, Inhabited

/-- A Django model class: an identity (for `isinstance`) plus its `_meta`. -/
structure ModelCls where
  cid : Nat
  meta : MetaInfo
deriving DecidableEq, Repr, Inhabited

/-- A Django model instance, restricted to the attributes the wrapper
touches.  `wrapped = none` models the attribute being absent
(`AttributeError` on read); `some b` models it set with truthiness `b`.
`save = some ()` models the save method being present, `none` models it
having been replaced by `None`. -/
structure ModelObj where
  cls : ModelCls
  ancestorIds : List Nat
  id : Option Nat
  wrapped : Option Bool
  save : Option Unit
  absolute_url : String
  admin_url_name : String
deriving DecidableEq, Repr, Inhabited

/-- Python truthiness of a primary-key attribute: `None` and `0` are
falsy, any other integer is truthy. -/
def pyTruthyId : Option Nat → Bool
  | none => false
  | some n => n != 0

/-- Python truthiness of the `wrapped` attribute; an absent attribute
(`none`) reads as falsy because `_raise_if_model_obj_is_wrapped` swallows
the `AttributeError`. -/
def pyTruthyWrapped : Option Bool → Bool
  | none => false
  | some b => b

/-- Python truthiness of an optional string: `None` and `""` are falsy. -/
def pyTruthyStrOpt : Option String → Bool
  | none => false
  | some s => s != ""

/-- Python `a or b` where `a` is an optional string and `b` a string. -/
def pyOrStr (a : Option String) (b : String) : String :=
  match a with
  | none => b
  | some s => if s = "" then b else s

/-- Python `a or b` on two optional strings (empty string is falsy). -/
def pyOrOptStr (a b : Option String) : Option String :=
  match a with
  | none => b
  | some s => if s = "" then b else some s

/-- Python `a or b` where `a` is an optional list and `b` a list (an
empty list is falsy). -/
def pyOrList (a : Option (List String)) (b : List String) : List String :=
  match a with
  | none => b
  | some l => if l = [] then b else l

/-- `isinstance(obj, cls)`: the class is the instance's class or one of
its ancestors. -/
def isInstanceOf (obj : ModelObj) (cls : ModelCls) : Bool :=
  obj.ancestorIds.contains cls.cid

/-- `s.lower().replace(" ", "_")` (line 90).  The pattern is the single
space character, so the replacement is a per-character map; lowering
first cannot produce or remove spaces. -/
def pyLowerUnderscore (s : String) : String :=
  ⟨s.data.map (fun c => if c.toLower = ' ' then '_' else c.toLower)⟩

/-- The exceptions the constructor can surface, as error values.
`modelError` is `ModelWrapperModelError`, `alreadyWrapped` is
`ModelWrapperObjectAlreadyWrapped`, `urlNameNotFound` models the
`edc_dashboard.url_names` registry raising on an unregistered (or `None`)
key, and `typeConfusion` models the failures caused by a keyword argument
overwriting a non-string wrapper attribute (see the module comment). -/
inductive WrapperError
  | modelError
  | alreadyWrapped
  | urlNameNotFound
  | typeConfusion
deriving DecidableEq, Repr

/-- Errors of the `history_url` property.  The source defines
`ModelWrapperNoReverseMatch` (lines 25-26) but never raises it; a failing
`reverse` call propagates the framework's `NoReverseMatch`, modelled as
`frameworkNoReverseMatch`. -/
inductive HistoryUrlError
  | frameworkNoReverseMatch
  | modelWrapperNoReverseMatch
deriving DecidableEq, Repr

/-- Class-level attributes of `ModelWrapper` (lines 55-68), overridable
by subclasses. -/
structure WrapperCfg where
  model : Option String := none
  model_cls : Option ModelCls := none
  cancel_attr : String := "cancel"
  cancel_url_name : Option String := none
  cancel_url_attrs : List String := []
  next_attr : String := "next"
  next_url_name : Option String := none
  next_url_attrs : List String := []
  querystring_attrs : List String := []
deriving DecidableEq, Repr, Inhabited

/-- The keyword arguments of `ModelWrapper.__init__` (lines 70-82).
`kwargs` are the extra keyword arguments, modelled as string-valued. -/
structure CtorArgs where
  model_obj : ModelObj
  model : Option String := none
  model_cls : Option ModelCls := none
  cancel_url_name : Option String := none
  cancel_url_attrs : Option (List String) := none
  next_url_name : Option String := none
  next_url_attrs : Option (List String) := none
  querystring_attrs : Option (List String) := none
  force_wrap : Bool := false
  kwargs : List (String × String) := []
deriving DecidableEq, Repr, Inhabited

/-- The external collaborators, as arbitrary functions:
* `url_names`: the `edc_dashboard.url_names` registry (`none` = raises);
* `reverse`: Django URL reversal (`none` = `NoReverseMatch`);
* `fields`: modelled from the spec: the repository's `Fields` helper
  (module missing from the sources), returning the model's field
  `(name, value)` pairs as strings;
* `next_url_querystring`: modelled from the spec: the repository's
  `NextUrlParser(url_name, url_args).querystring(objects, **kwargs)`
  (module missing from the sources), an arbitrary string of the parser's
  making;
* `keywords`: modelled from the spec: the repository's
  `Keywords(objects, attrs, **kwargs)` mapping (module missing from the
  sources). -/
structure Env where
  url_names : String → Option String
  reverse : String → List String → Option String
  fields : ModelObj → List (String × String)
  next_url_querystring :
    Option String → List String → ModelObj → List (String × String) → String
  keywords :
    ModelObj → List String → List (String × String) → List (String × String)

/-- The wrapper's state after construction: the instance attributes set
by `__init__`, plus `extra` for attributes copied by `wrap_me_with` that
have no other slot. -/
structure Wrapper where
  object : ModelObj
  kwargs : List (String × String)
  model_cls : ModelCls
  model_name : String
  model : String
  fields : List (String × String)
  next_url_name : Option String
  next_url_attrs : List String
  next_url : String
  cancel_url_name : Option String
  cancel_url_attrs : List String
  cancel_url : Option String
  querystring_attrs : List String
  keywords : List (String × String)
  next_attr : String
  cancel_attr : String
  get_absolute_url : String
  admin_url_name : String
  href : String
  extra : List (String × String)
deriving DecidableEq, Repr, Inhabited

/-- Overwrite-or-insert into the `extra` attribute map. -/
def setExtra (l : List (String × String)) (k v : String) :
    List (String × String) :=
  l.filter (fun p => p.1 ≠ k) ++ [(k, v)]

/-- One `setattr(self, key, value)` of `wrap_me_with` (lines 179-185).
Keys naming a plain string-valued instance attribute overwrite it; the
properties `querystring`, `_meta` and `history_url` have no setter, so
the `AttributeError` is swallowed and the key is skipped; any other key
lands in `extra`.  (Keys naming non-string attributes never reach this
function: the constructor surfaces them as `typeConfusion`.) -/
def setAttr (w : Wrapper) (k v : String) : Wrapper :=
  match k with
  | "model" => { w with model := v }
  | "model_name" => { w with model_name := v }
  | "next_url_name" => { w with next_url_name := some v }
  | "cancel_url_name" => { w with cancel_url_name := some v }
  | "next_url" => { w with next_url := v }
  | "cancel_url" => { w with cancel_url := some v }
  | "next_attr" => { w with next_attr := v }
  | "cancel_attr" => { w with cancel_attr := v }
  | "get_absolute_url" => { w with get_absolute_url := v }
  | "admin_url_name" => { w with admin_url_name := v }
  | "href" => { w with href := v }
  | "querystring" => w
  | "_meta" => w
  | "history_url" => w
  | _ => { w with extra := setExtra w.extra k v }

/-- `wrap_me_with(dct)`: fold `setattr` over the key/value pairs. -/
def wrapFold (w : Wrapper) (l : List (String × String)) : Wrapper :=
  l.foldl (fun w p => setAttr w p.1 p.2) w

/-- Keyword or field keys whose `setattr` makes the constructor fail
before the instance is mutated: `fields` is called at line 127 and
`self.object` has attributes set at line 135, so a string in either slot
raises there. -/
def failPreKeys : List String := ["object", "fields"]

/-- Keyword or field keys whose `setattr` makes the constructor fail
only at line 138 (building the querystring), after the instance was
mutated at lines 135-136. -/
def failPostKeys : List String :=
  ["keywords", "kwargs", "next_url_attrs", "cancel_url_attrs",
   "querystring_attrs"]

/-- The uppercase hexadecimal digit of `n < 16`. -/
def hexDigit (n : Nat) : Char :=
  if n < 10 then Char.ofNat (48 + n) else Char.ofNat (55 + n)

/-- The UTF-8 bytes of a character (as used by `urllib.parse.quote`). -/
def utf8Bytes (c : Char) : List Nat :=
  let n := c.toNat
  if n < 0x80 then [n]
  else if n < 0x800 then [0xC0 + n / 64, 0x80 + n % 64]
  else if n < 0x10000 then
    [0xE0 + n / 4096, 0x80 + n / 64 % 64, 0x80 + n % 64]
  else
    [0xF0 + n / 262144, 0x80 + n / 4096 % 64, 0x80 + n / 64 % 64,
     0x80 + n % 64]

/-- Whether a byte is kept verbatim by `urllib.parse.quote_plus`:
ASCII letters, digits, and `_.-~`. -/
def isUrlSafeByte (b : Nat) : Bool :=
  (0x41 ≤ b && b ≤ 0x5A) || (0x61 ≤ b && b ≤ 0x7A) ||
    (0x30 ≤ b && b ≤ 0x39) || b == 0x5F || b == 0x2E || b == 0x2D ||
    b == 0x7E

/-- Percent-encode one byte as `urllib.parse.quote_plus` does: safe
bytes verbatim, space as `+`, the rest as `%XX`. -/
def quoteByte (b : Nat) : List Char :=
  if isUrlSafeByte b then [Char.ofNat b]
  else if b == 0x20 then ['+']
  else ['%', hexDigit (b / 16 % 16), hexDigit (b % 16)]

/-- `urllib.parse.quote_plus` on a string (UTF-8, `safe=''`). -/
def quotePlus (s : String) : String :=
  ⟨s.data.flatMap (fun c => (utf8Bytes c).flatMap quoteByte)⟩

/-- `'&'.join(strings)`. -/
def joinAmp : List String → String
  | [] => ""
  | [s] => s
  | s :: rest => s ++ "&" ++ joinAmp rest

/-- `urllib.parse.urlencode(pairs, encoding="utf-8")`. -/
def urlencode (pairs : List (String × String)) : String :=
  joinAmp (pairs.map (fun p => quotePlus p.1 ++ "=" ++ quotePlus p.2))

/-- The `next` component of `querystring` (lines 152-162):
`<next_attr>=<next_url>`, with the parser's attrs appended after a comma
when they are non-empty. -/
def nextComponent (env : Env) (w : Wrapper) : String :=
  let next_attrs :=
    env.next_url_querystring w.next_url_name w.next_url_attrs w.object
      w.kwargs
  if next_attrs ≠ "" then
    w.next_attr ++ "=" ++ w.next_url ++ "," ++ next_attrs
  else
    w.next_attr ++ "=" ++ w.next_url

/-- The `cancel` entries of the `strings` list of `querystring`
(lines 164-175): nothing when `self.cancel_url` is falsy; otherwise
`cancel=<cancel_url>,<attrs>` — or, when the parser's attrs are empty,
the bare `self.cancel_url` (line 175). -/
def cancelComponents (env : Env) (w : Wrapper) : List String :=
  if pyTruthyStrOpt w.cancel_url then
    let cu := w.cancel_url.getD ""
    let cancel_attrs :=
      env.next_url_querystring w.cancel_url_name w.cancel_url_attrs
        w.object w.kwargs
    if cancel_attrs ≠ "" then
      [w.cancel_attr ++ "=" ++ cu ++ "," ++ cancel_attrs]
    else
      [cu]
  else []

/-- The `querystring` property (lines 148-177): the `next` component,
then the `cancel` entries, then the URL-encoded keywords, joined
with `&`. -/
def querystringOf (env : Env) (w : Wrapper) : String :=
  joinAmp (nextComponent env w :: (cancelComponents env w ++ [urlencode w.keywords]))

/-- `model_cls or self.model_cls or self.object.__class__` (line 89). -/
def resolvedModelCls (cfg : WrapperCfg) (a : CtorArgs) : ModelCls :=
  ((a.model_cls).orElse (fun _ => cfg.model_cls)).getD a.model_obj.cls

/-- `model or self.model or self.model_cls._meta.label_lower`
(line 91). -/
def resolvedModel (cfg : WrapperCfg) (a : CtorArgs) : String :=
  pyOrStr a.model (pyOrStr cfg.model (resolvedModelCls cfg a).meta.label_lower)

/-- `next_url_name or self.next_url_name` (line 110). -/
def resolvedNextName (cfg : WrapperCfg) (a : CtorArgs) : Option String :=
  pyOrOptStr a.next_url_name cfg.next_url_name

/-- `cancel_url_name or self.cancel_url_name` (line 114). -/
def resolvedCancelName (cfg : WrapperCfg) (a : CtorArgs) : Option String :=
  pyOrOptStr a.cancel_url_name cfg.cancel_url_name

/-- The wrapper state reached at line 136 of `__init__`, given the
already-resolved next URL and cancel URL/attrs: build the instance
attributes (lines 104-124), fold `wrap_me_with` over the kwargs
(line 126) and the field values (line 127), bind `get_absolute_url` and
`admin_url_name` from the object (lines 130-132), and mark the object as
wrapped with `save` disabled (lines 135-136). -/
def mkWrapperBase (cfg : WrapperCfg) (env : Env) (a : CtorArgs)
    (next_url : String) (cancel_url : Option String)
    (cancel_url_attrs : List String) : Wrapper :=
  let obj := a.model_obj
  let fieldPairs := env.fields obj
  let querystring_attrs := pyOrList a.querystring_attrs cfg.querystring_attrs
  let w1 : Wrapper :=
    { object := obj
      kwargs := a.kwargs
      model_cls := resolvedModelCls cfg a
      model_name := pyLowerUnderscore (resolvedModelCls cfg a).meta.object_name
      model := resolvedModel cfg a
      fields := fieldPairs
      next_url_name := resolvedNextName cfg a
      next_url_attrs := pyOrList a.next_url_attrs cfg.next_url_attrs
      next_url := next_url
      cancel_url_name := resolvedCancelName cfg a
      cancel_url_attrs := cancel_url_attrs
      cancel_url := cancel_url
      querystring_attrs := querystring_attrs
      keywords := env.keywords obj querystring_attrs a.kwargs
      next_attr := cfg.next_attr
      cancel_attr := cfg.cancel_attr
      get_absolute_url := ""
      admin_url_name := ""
      href := ""
      extra := [] }
  let w2 := wrapFold w1 a.kwargs
  let w3 := wrapFold w2 fieldPairs
  let obj2 : ModelObj := { obj with wrapped := some true, save := none }
  { w3 with
    get_absolute_url := obj.absolute_url
    admin_url_name := obj.admin_url_name
    object := obj2 }

/-- The wrapper built on the success path of `__init__`: the state of
`mkWrapperBase` with `href` derived as
`f"{self.get_absolute_url()}?{self.querystring}"` (line 138). -/
def mkSuccessWrapper (cfg : WrapperCfg) (env : Env) (a : CtorArgs)
    (next_url : String) (cancel_url : Option String)
    (cancel_url_attrs : List String) : Wrapper :=
  let w4 := mkWrapperBase cfg env a next_url cancel_url cancel_url_attrs
  { w4 with href := w4.get_absolute_url ++ "?" ++ querystringOf env w4 }

/-- `ModelWrapper.__init__` (lines 70-140) as a function from the
configuration, environment and arguments to the raised error or the
constructed wrapper, paired with the final state of the model instance
passed as `model_obj`. -/
def construct (cfg : WrapperCfg) (env : Env) (a : CtorArgs) :
    Except WrapperError Wrapper × ModelObj :=
  let obj := a.model_obj
  if !a.force_wrap && pyTruthyWrapped obj.wrapped then
    (.error .alreadyWrapped, obj)
  else if !(isInstanceOf obj (resolvedModelCls cfg a)) then
    (.error .modelError, obj)
  else if resolvedModel cfg a ≠ (resolvedModelCls cfg a).meta.label_lower then
    (.error .modelError, obj)
  else
    match (resolvedNextName cfg a).bind env.url_names with
    | none => (.error .urlNameNotFound, obj)
    | some next_url =>
      let cancelRes : Except WrapperError (Option String × List String) :=
        if pyTruthyStrOpt (resolvedCancelName cfg a) then
          match (resolvedCancelName cfg a).bind env.url_names with
          | none => .error .urlNameNotFound
          | some cu =>
            .ok (some cu, pyOrList a.cancel_url_attrs cfg.cancel_url_attrs)
        else .ok (none, cfg.cancel_url_attrs)
      match cancelRes with
      | .error e => (.error e, obj)
      | .ok (cancel_url, cancel_url_attrs) =>
        if (a.kwargs ++ env.fields obj).any
            (fun p => failPreKeys.contains p.1) then
          (.error .typeConfusion, obj)
        else if (a.kwargs ++ env.fields obj).any
            (fun p => failPostKeys.contains p.1) then
          (.error .typeConfusion, { obj with wrapped := some true, save := none })
        else
          (.ok (mkSuccessWrapper cfg env a next_url cancel_url cancel_url_attrs),
           { obj with wrapped := some true, save := none })

/-- `ModelWrapper.__bool__` (lines 145-146). -/
def wrapperBool (w : Wrapper) : Bool :=
  pyTruthyId w.object.id

/-- The URL name the `history_url` property reverses (lines 214-216). -/
def historyUrlName (w : Wrapper) : String :=
  ((w.admin_url_name.splitOn ":").headD "") ++ ":" ++
    w.object.cls.meta.app_label ++ "_" ++ w.object.cls.meta.model_name ++
    "_history"

/-- The `history_url` property (lines 209-217): `None` when the object's
`id` is falsy, otherwise the reversed admin history URL; a failing
`reverse` propagates the framework's `NoReverseMatch`. -/
def history_url (env : Env) (w : Wrapper) :
    Except HistoryUrlError (Option String) :=
  match w.object.id with
  | none => .ok none
  | some n =>
    if n = 0 then .ok none
    else
      match env.reverse (historyUrlName w) [toString n] with
      | some u => .ok (some u)
      | none => .error .frameworkNoReverseMatch

/-! ### Concrete fixtures for witnesses and counterexamples -/

/-- Metadata of a concrete model class `app.Subject`. -/
def sMeta : MetaInfo :=
  { object_name := "Subject", label_lower := "app.subject",
    app_label := "app", model_name := "subject" }

/-- A concrete model class. -/
def sCls : ModelCls := { cid := 1, meta := sMeta }

/-- A concrete saved, unwrapped model instance. -/
def sObj : ModelObj :=
  { cls := sCls, ancestorIds := [1], id := some 5, wrapped := none,
    save := some (), absolute_url := "/subject/5/",
    admin_url_name := "admin:app_subject" }

/-- A concrete environment: a registry with two URL names, a `reverse`
with no matches, one model field, a parser returning no attrs and no
keywords. -/
def sEnv : Env :=
  { url_names := fun n =>
      if n = "next_name" then some "/next/"
      else if n = "cancel_name" then some "/cancel/"
      else none
    reverse := fun _ _ => none
    fields := fun _ => [("f1", "v1")]
    next_url_querystring := fun _ _ _ _ => ""
    keywords := fun _ _ _ => [] }

/-- `sObj` already marked as wrapped. -/
def sObjW : ModelObj := { sObj with wrapped := some true }

/-- Arguments wrapping `sObj` with only a next URL name. -/
def sArgsNext : CtorArgs :=
  { model_obj := sObj, next_url_name := some "next_name" }

/-- Arguments wrapping `sObj` with next and cancel URL names. -/
def sArgsNextCancel : CtorArgs :=
  { model_obj := sObj, next_url_name := some "next_name",
    cancel_url_name := some "cancel_name" }

/-- The wrapper built by `construct {} sEnv sArgsNext`. -/
def sWrap : Wrapper :=
  ((construct {} sEnv sArgsNext).1.toOption).getD default

/-- The model instance after `construct {} sEnv sArgsNext`. -/
def sWrapObj : ModelObj := (construct {} sEnv sArgsNext).2

/-- The wrapper built by `construct {} sEnv sArgsNextCancel`. -/
def sWrapNC : Wrapper :=
  ((construct {} sEnv sArgsNextCancel).1.toOption).getD default

/-- The model instance after `construct {} sEnv sArgsNextCancel`. -/
def sWrapNCObj : ModelObj := (construct {} sEnv sArgsNextCancel).2

/-- A second wrapping attempt around the instance already wrapped by
`construct {} sEnv sArgsNext`. -/
def sArgsRewrap : CtorArgs :=
  { model_obj := sWrapObj, next_url_name := some "next_name" }

/-- Arguments whose `model` disagrees with the class's `label_lower`,
on an instance that is already marked wrapped. -/
def c4args : CtorArgs :=
  { model_obj := sObjW, model := some "wrong.model",
    next_url_name := some "next_name" }

/-- Arguments whose `model` disagrees with the class's `label_lower`,
on a fresh instance. -/
def cModelArgs : CtorArgs :=
  { model_obj := sObj, model := some "wrong.model",
    next_url_name := some "next_name" }

/-- The model instance after the failing `construct {} sEnv cModelArgs`. -/
def cModelObj : ModelObj := (construct {} sEnv cModelArgs).2

/-- Arguments passing the extra keyword `next_url="clobbered"`: it lands
in `kwargs` and `wrap_me_with` copies it over the resolved
`self.next_url`. -/
def c7args : CtorArgs :=
  { model_obj := sObj, next_url_name := some "next_name",
    kwargs := [("next_url", "clobbered")] }

/-- An unsaved concrete model instance (`id` is `None`). -/
def c9obj : ModelObj := { sObj with id := none }

/-- Arguments wrapping the unsaved instance. -/
def c9args : CtorArgs :=
  { model_obj := c9obj, next_url_name := some "next_name" }

/-- The wrapper around the unsaved instance. -/
def c9wrap : Wrapper :=
  ((construct {} sEnv c9args).1.toOption).getD default

/-! ### Basic lemmas -/

theorem strAppendAssoc (a b c : String) : a ++ b ++ c = a ++ (b ++ c) := by
  apply String.ext
  simp

theorem joinAmp_cons (a : String) (l : List String) (h : l ≠ []) :
    joinAmp (a :: l) = a ++ "&" ++ joinAmp l := by
  cases l with
  | nil => exact absurd rfl h
  | cons b t => rfl

theorem setAttr_object (w : Wrapper) (k v : String) :
    (setAttr w k v).object = w.object := by
  unfold setAttr
  split <;> rfl

theorem setAttr_kwargs (w : Wrapper) (k v : String) :
    (setAttr w k v).kwargs = w.kwargs := by
  unfold setAttr
  split <;> rfl

theorem setAttr_keywords (w : Wrapper) (k v : String) :
    (setAttr w k v).keywords = w.keywords := by
  unfold setAttr
  split <;> rfl

theorem setAttr_next_url_attrs (w : Wrapper) (k v : String) :
    (setAttr w k v).next_url_attrs = w.next_url_attrs := by
  unfold setAttr
  split <;> rfl

theorem setAttr_cancel_url_attrs (w : Wrapper) (k v : String) :
    (setAttr w k v).cancel_url_attrs = w.cancel_url_attrs := by
  unfold setAttr
  split <;> rfl

theorem setAttr_next_url (w : Wrapper) (k v : String)
    (h : k ≠ "next_url") : (setAttr w k v).next_url = w.next_url := by
  unfold setAttr
  split <;> first | rfl | simp_all

theorem setAttr_cancel_url (w : Wrapper) (k v : String)
    (h : k ≠ "cancel_url") : (setAttr w k v).cancel_url = w.cancel_url := by
  unfold setAttr
  split <;> first | rfl | simp_all

theorem wrapFold_object (l : List (String × String)) (w : Wrapper) :
    (wrapFold w l).object = w.object := by
  induction l generalizing w with
  | nil => rfl
  | cons p t ih => rw [wrapFold, List.foldl_cons, ← wrapFold, ih, setAttr_object]

theorem wrapFold_kwargs (l : List (String × String)) (w : Wrapper) :
    (wrapFold w l).kwargs = w.kwargs := by
  induction l generalizing w with
  | nil => rfl
  | cons p t ih => rw [wrapFold, List.foldl_cons, ← wrapFold, ih, setAttr_kwargs]

theorem wrapFold_keywords (l : List (String × String)) (w : Wrapper) :
    (wrapFold w l).keywords = w.keywords := by
  induction l generalizing w with
  | nil => rfl
  | cons p t ih => rw [wrapFold, List.foldl_cons, ← wrapFold, ih, setAttr_keywords]

theorem wrapFold_next_url (l : List (String × String)) (w : Wrapper)
    (h : ∀ p ∈ l, p.1 ≠ "next_url") :
    (wrapFold w l).next_url = w.next_url := by
  induction l generalizing w with
  | nil => rfl
  | cons p t ih =>
    rw [wrapFold, List.foldl_cons, ← wrapFold,
      ih _ (fun q hq => h q (List.mem_cons_of_mem p hq)),
      setAttr_next_url _ _ _ (h p (List.mem_cons_self p t))]

theorem wrapFold_cancel_url (l : List (String × String)) (w : Wrapper)
    (h : ∀ p ∈ l, p.1 ≠ "cancel_url") :
    (wrapFold w l).cancel_url = w.cancel_url := by
  induction l generalizing w with
  | nil => rfl
  | cons p t ih =>
    rw [wrapFold, List.foldl_cons, ← wrapFold,
      ih _ (fun q hq => h q (List.mem_cons_of_mem p hq)),
      setAttr_cancel_url _ _ _ (h p (List.mem_cons_self p t))]

theorem querystringOf_set_href (env : Env) (w : Wrapper) (x : String) :
    querystringOf env { w with href := x } = querystringOf env w := by
  cases w
  rfl

theorem mkSuccessWrapper_object (cfg : WrapperCfg) (env : Env) (a : CtorArgs)
    (nu : String) (cu : Option String) (cua : List String) :
    (mkSuccessWrapper cfg env a nu cu cua).object =
      { a.model_obj with wrapped := some true, save := none } := rfl

theorem mkSuccessWrapper_get_absolute_url (cfg : WrapperCfg) (env : Env)
    (a : CtorArgs) (nu : String) (cu : Option String) (cua : List String) :
    (mkSuccessWrapper cfg env a nu cu cua).get_absolute_url =
      a.model_obj.absolute_url := rfl

theorem mkSuccessWrapper_admin_url_name (cfg : WrapperCfg) (env : Env)
    (a : CtorArgs) (nu : String) (cu : Option String) (cua : List String) :
    (mkSuccessWrapper cfg env a nu cu cua).admin_url_name =
      a.model_obj.admin_url_name := rfl

theorem mkSuccessWrapper_href (cfg : WrapperCfg) (env : Env) (a : CtorArgs)
    (nu : String) (cu : Option String) (cua : List String) :
    (mkSuccessWrapper cfg env a nu cu cua).href =
      (mkSuccessWrapper cfg env a nu cu cua).get_absolute_url ++ "?" ++
        querystringOf env (mkSuccessWrapper cfg env a nu cu cua) := by
  rfl

theorem mkSuccessWrapper_next_url (cfg : WrapperCfg) (env : Env) (a : CtorArgs)
    (nu : String) (cu : Option String) (cua : List String)
    (hk : ∀ p ∈ a.kwargs, p.1 ≠ "next_url")
    (hf : ∀ p ∈ env.fields a.model_obj, p.1 ≠ "next_url") :
    (mkSuccessWrapper cfg env a nu cu cua).next_url = nu := by
  simp only [mkSuccessWrapper, mkWrapperBase]
  rw [wrapFold_next_url _ _ hf, wrapFold_next_url _ _ hk]

theorem mkSuccessWrapper_cancel_url (cfg : WrapperCfg) (env : Env)
    (a : CtorArgs) (nu : String) (cu : Option String) (cua : List String)
    (hk : ∀ p ∈ a.kwargs, p.1 ≠ "cancel_url")
    (hf : ∀ p ∈ env.fields a.model_obj, p.1 ≠ "cancel_url") :
    (mkSuccessWrapper cfg env a nu cu cua).cancel_url = cu := by
  simp only [mkSuccessWrapper, mkWrapperBase]
  rw [wrapFold_cancel_url _ _ hf, wrapFold_cancel_url _ _ hk]

/-- The `querystring` property always begins with the `next` component:
`<next_attr>=<next_url>` followed by the rest of the string. -/
theorem nextComponent_head (env : Env) (w : Wrapper) :
    ∃ t, nextComponent env w = w.next_attr ++ "=" ++ w.next_url ++ t := by
  simp only [nextComponent]
  split
  · exact ⟨"," ++ env.next_url_querystring w.next_url_name w.next_url_attrs
      w.object w.kwargs, by simp [strAppendAssoc]⟩
  · exact ⟨"", by simp⟩

theorem querystringOf_next_head (env : Env) (w : Wrapper) :
    ∃ rest, querystringOf env w =
      w.next_attr ++ "=" ++ w.next_url ++ rest := by
  obtain ⟨t, ht⟩ := nextComponent_head env w
  have hC : cancelComponents env w ++ [urlencode w.keywords] ≠ [] := by
    simp [List.append_eq_nil]
  rw [querystringOf, joinAmp_cons _ _ hC, ht]
  exact ⟨t ++ ("&" ++
      joinAmp (cancelComponents env w ++ [urlencode w.keywords])),
    by simp [strAppendAssoc]⟩

/-- Characterization of a successful construction: the model instance is
returned marked wrapped with `save` disabled, and the wrapper is
`mkSuccessWrapper` applied to a next URL resolved through the registry
and a cancel URL resolved iff a cancel URL name is configured. -/
theorem construct_ok_shape (cfg : WrapperCfg) (env : Env) (a : CtorArgs)
    (w : Wrapper) (o : ModelObj)
    (h : construct cfg env a = (.ok w, o)) :
    o = { a.model_obj with wrapped := some true, save := none } ∧
    ∃ nu curl cua,
      (resolvedNextName cfg a).bind env.url_names = some nu ∧
      w = mkSuccessWrapper cfg env a nu curl cua ∧
      ((∃ cu, pyTruthyStrOpt (resolvedCancelName cfg a) = true ∧
          (resolvedCancelName cfg a).bind env.url_names = some cu ∧
          curl = some cu ∧
          cua = pyOrList a.cancel_url_attrs cfg.cancel_url_attrs) ∨
        (pyTruthyStrOpt (resolvedCancelName cfg a) = false ∧ curl = none ∧
          cua = cfg.cancel_url_attrs)) := by
  simp only [construct] at h
  split at h
  · simp at h
  split at h
  · simp at h
  split at h
  · simp at h
  split at h
  · simp at h
  rename_i nu hnu
  split at h
  · simp at h
  rename_i curl cua hres
  split at h
  · simp at h
  split at h
  · simp at h
  rw [Prod.mk.injEq] at h
  obtain ⟨h1, h2⟩ := h
  rw [Except.ok.injEq] at h1
  refine ⟨h2.symm, nu, curl, cua, hnu, h1.symm, ?_⟩
  split at hres
  · rename_i htr
    split at hres
    · simp at hres
    rename_i cu hcu
    simp only [Except.ok.injEq, Prod.mk.injEq] at hres
    exact Or.inl ⟨cu, htr, hcu, hres.1.symm, hres.2.symm⟩
  · rename_i hfa
    simp only [Except.ok.injEq, Prod.mk.injEq] at hres
    refine Or.inr ⟨by simpa using hfa, hres.1.symm, hres.2.symm⟩

/-! ### Claim theorems -/

/-- Claim C2: a model instance marked wrapped by a prior successful
construction raises `ModelWrapperObjectAlreadyWrapped` when wrapped
again with `force_wrap` falsy — under any configuration and
environment. -/
theorem c2_wrapping_twice_raises
    (cfg1 cfg2 : WrapperCfg) (env1 env2 : Env) (a1 a2 : CtorArgs)
    (w1 : Wrapper) (o1 : ModelObj)
    (h1 : construct cfg1 env1 a1 = (.ok w1, o1))
    (h2 : a2.model_obj = o1) (h3 : a2.force_wrap = false) :
    construct cfg2 env2 a2 = (.error .alreadyWrapped, o1) := by
  obtain ⟨ho, -⟩ := construct_ok_shape _ _ _ _ _ h1
  have hw : pyTruthyWrapped o1.wrapped = true := by
    rw [ho]
    rfl
  simp [construct, h3, h2, hw]

/-- Witness for C2: `sObj` wrapped via `sArgsNext`, then wrapped
again. -/
theorem c2_witness :
    construct {} sEnv sArgsRewrap = (.error .alreadyWrapped, sWrapObj) :=
  c2_wrapping_twice_raises {} {} sEnv sEnv sArgsNext sArgsRewrap sWrap
    sWrapObj (by decide) rfl rfl

/-- Claim C3: on every successful construction, `href` is the object's
absolute URL, `?`, then the querystring; and the querystring — hence
`href` — carries the next component `<next_attr>=<next_url>...` (with
the default configuration `next_attr` is `"next"`). -/
theorem c3_href_shape (cfg : WrapperCfg) (env : Env) (a : CtorArgs)
    (w : Wrapper) (o : ModelObj)
    (h : construct cfg env a = (.ok w, o)) :
    w.href = w.get_absolute_url ++ "?" ++ querystringOf env w ∧
    ∃ rest, w.href =
      w.get_absolute_url ++ "?" ++
        (w.next_attr ++ "=" ++ w.next_url ++ rest) := by
  obtain ⟨-, nu, curl, cua, -, hw, -⟩ := construct_ok_shape _ _ _ _ _ h
  subst hw
  refine ⟨mkSuccessWrapper_href cfg env a nu curl cua, ?_⟩
  obtain ⟨rest, hr⟩ :=
    querystringOf_next_head env (mkSuccessWrapper cfg env a nu curl cua)
  exact ⟨rest, by rw [mkSuccessWrapper_href cfg env a nu curl cua, hr]⟩

/-- Witness for C3 at the concrete construction `sArgsNext`. -/
theorem c3_witness :
    sWrap.href = sWrap.get_absolute_url ++ "?" ++ querystringOf sEnv sWrap :=
  (c3_href_shape {} sEnv sArgsNext sWrap sWrapObj (by decide)).1

/-- Claim C6: a successful construction leaves the model instance equal
to its original state except that `wrapped` is now `True` and `save` is
now `None`; every other attribute is unchanged. -/
theorem c6_mutation_frame (cfg : WrapperCfg) (env : Env) (a : CtorArgs)
    (w : Wrapper) (o : ModelObj)
    (h : construct cfg env a = (.ok w, o)) :
    o = { a.model_obj with wrapped := some true, save := none } ∧
    o.wrapped = some true ∧ o.save = none ∧
    o.id = a.model_obj.id ∧ o.cls = a.model_obj.cls ∧
    o.ancestorIds = a.model_obj.ancestorIds ∧
    o.absolute_url = a.model_obj.absolute_url ∧
    o.admin_url_name = a.model_obj.admin_url_name := by
  obtain ⟨ho, -⟩ := construct_ok_shape _ _ _ _ _ h
  subst ho
  exact ⟨rfl, rfl, rfl, rfl, rfl, rfl, rfl, rfl⟩

/-- Witness for C6 at the concrete construction `sArgsNext`. -/
theorem c6_witness :
    sWrapObj = { sObj with wrapped := some true, save := none } ∧
    sWrapObj.wrapped = some true ∧ sWrapObj.save = none ∧
    sWrapObj.id = sObj.id ∧ sWrapObj.cls = sObj.cls ∧
    sWrapObj.ancestorIds = sObj.ancestorIds ∧
    sWrapObj.absolute_url = sObj.absolute_url ∧
    sWrapObj.admin_url_name = sObj.admin_url_name :=
  c6_mutation_frame {} sEnv sArgsNext sWrap sWrapObj (by decide)

/-- Claim C8: a constructed wrapper's boolean value is `True` exactly
when the wrapped instance's `id` is truthy, and in particular `False`
when `id` is `None`. -/
theorem c8_bool_truthiness (cfg : WrapperCfg) (env : Env) (a : CtorArgs)
    (w : Wrapper) (o : ModelObj)
    (h : construct cfg env a = (.ok w, o)) :
    (wrapperBool w = true ↔ pyTruthyId a.model_obj.id = true) ∧
    (a.model_obj.id = none → wrapperBool w = false) := by
  obtain ⟨-, nu, curl, cua, -, hw, -⟩ := construct_ok_shape _ _ _ _ _ h
  subst hw
  have he : wrapperBool (mkSuccessWrapper cfg env a nu curl cua) =
      pyTruthyId a.model_obj.id := rfl
  rw [he]
  exact ⟨Iff.rfl, fun hid => by rw [hid]; rfl⟩

/-- Witness for C8 at the concrete construction `sArgsNext`. -/
theorem c8_witness :
    wrapperBool sWrap = true ↔ pyTruthyId sObj.id = true :=
  (c8_bool_truthiness {} sEnv sArgsNext sWrap sWrapObj (by decide)).1

/-- Counterexample to C4 as stated: on an instance already marked
wrapped, a constructor call whose `model` disagrees with the class's
`label_lower` raises `ModelWrapperObjectAlreadyWrapped` (the line 88
check runs first), not `ModelWrapperModelError`. -/
theorem c4_counterexample :
    resolvedModel {} c4args ≠ (resolvedModelCls {} c4args).meta.label_lower ∧
    construct {} sEnv c4args = (.error .alreadyWrapped, sObjW) ∧
    WrapperError.alreadyWrapped ≠ WrapperError.modelError := by
  exact ⟨by decide, by decide, by decide⟩

/-- Claim C4 (amended): provided the already-wrapped precondition passes
(the instance is not marked wrapped, or `force_wrap` is set), a
constructor call whose instance is not an instance of the resolved model
class, or whose resolved model label differs from the class's
`label_lower`, raises `ModelWrapperModelError` and leaves the instance
untouched. -/
theorem c4_model_error (cfg : WrapperCfg) (env : Env) (a : CtorArgs)
    (hw : a.force_wrap = true ∨ pyTruthyWrapped a.model_obj.wrapped = false)
    (hbad : isInstanceOf a.model_obj (resolvedModelCls cfg a) = false ∨
      resolvedModel cfg a ≠ (resolvedModelCls cfg a).meta.label_lower) :
    construct cfg env a = (.error .modelError, a.model_obj) := by
  have h1 : (!a.force_wrap && pyTruthyWrapped a.model_obj.wrapped) = false := by
    rcases hw with h | h
    · simp [h]
    · simp [h]
  rcases hbad with h | h
  · simp [construct, h1, h]
  · by_cases hi : isInstanceOf a.model_obj (resolvedModelCls cfg a)
    · simp [construct, h1, hi, h]
    · simp [construct, h1, hi]

/-- Witness for the amended C4: wrong `model` label on a fresh
instance. -/
theorem c4_witness :
    construct {} sEnv cModelArgs = (.error .modelError, sObj) :=
  c4_model_error {} sEnv cModelArgs (Or.inr rfl) (Or.inr (by decide))

/-- Counterexample to C7 as stated: the extra keyword
`next_url="clobbered"` is copied onto the wrapper by `wrap_me_with`
(line 126) after the registry resolution (line 112), so the constructed
wrapper's `next_url` is `"clobbered"` while the registry value under the
resolved name is `"/next/"`. -/
theorem c7_counterexample :
    (construct {} sEnv c7args).1.toOption.map Wrapper.next_url =
      some "clobbered" ∧
    (resolvedNextName {} c7args).bind sEnv.url_names = some "/next/" ∧
    ("clobbered" : String) ≠ "/next/" := by
  exact ⟨by decide, by decide, by decide⟩

/-- Claim C7 (amended): on every successful construction in which no
extra keyword argument and no model field pair is keyed `next_url` or
`cancel_url`, the wrapper's `next_url` is the registry value under the
resolved next URL name; and when a cancel URL name is configured
(truthy), `cancel_url` is the registry value under it, otherwise
`cancel_url` is `None`. -/
theorem c7_url_resolution (cfg : WrapperCfg) (env : Env) (a : CtorArgs)
    (w : Wrapper) (o : ModelObj)
    (h : construct cfg env a = (.ok w, o))
    (hk : ∀ p ∈ a.kwargs, p.1 ≠ "next_url" ∧ p.1 ≠ "cancel_url")
    (hf : ∀ p ∈ env.fields a.model_obj,
      p.1 ≠ "next_url" ∧ p.1 ≠ "cancel_url") :
    (resolvedNextName cfg a).bind env.url_names = some w.next_url ∧
    (pyTruthyStrOpt (resolvedCancelName cfg a) = true →
      (resolvedCancelName cfg a).bind env.url_names = w.cancel_url) ∧
    (pyTruthyStrOpt (resolvedCancelName cfg a) = false →
      w.cancel_url = none) := by
  obtain ⟨-, nu, curl, cua, hnu, hw, hc⟩ := construct_ok_shape _ _ _ _ _ h
  subst hw
  rw [mkSuccessWrapper_next_url cfg env a nu curl cua
      (fun p hp => (hk p hp).1) (fun p hp => (hf p hp).1),
    mkSuccessWrapper_cancel_url cfg env a nu curl cua
      (fun p hp => (hk p hp).2) (fun p hp => (hf p hp).2)]
  rcases hc with ⟨cu, htr, hcu, hcurl, -⟩ | ⟨hfa, hcurl, -⟩
  · subst hcurl
    refine ⟨hnu, fun _ => hcu, fun hf2 => ?_⟩
    rw [htr] at hf2
    exact absurd hf2 (by simp)
  · subst hcurl
    refine ⟨hnu, fun h2 => ?_, fun _ => rfl⟩
    rw [hfa] at h2
    exact absurd h2 (by simp)

/-- Witness for the amended C7 at the concrete construction
`sArgsNextCancel`. -/
theorem c7_witness :
    (resolvedNextName {} sArgsNextCancel).bind sEnv.url_names =
      some sWrapNC.next_url :=
  (c7_url_resolution {} sEnv sArgsNextCancel sWrapNC sWrapNCObj (by decide)
    (by decide) (by decide)).1

/-- Claim C9: for a wrapper whose object's `id` is falsy, `history_url`
is `None`.  The environment — and with it the behaviour of `reverse` —
is universally quantified, so no URL reversal is consulted. -/
theorem c9_history_url_none (env : Env) (w : Wrapper)
    (h : pyTruthyId w.object.id = false) :
    history_url env w = .ok none := by
  cases hid : w.object.id with
  | none => simp [history_url, hid]
  | some n =>
    rw [hid] at h
    simp only [pyTruthyId, bne_eq_false_iff_eq] at h
    simp [history_url, hid, h]

/-- Witness for C9: the wrapper around the unsaved instance. -/
theorem c9_witness : history_url sEnv c9wrap = .ok none :=
  c9_history_url_none sEnv c9wrap (by decide)

/-- Claim C10: when construction raises `ModelWrapperModelError`, the
model instance comes back exactly as it went in — `wrapped` not set,
`save` not replaced — so any later constructor call on it behaves as on
the original instance. -/
theorem c10_model_error_preserves (cfg : WrapperCfg) (env : Env)
    (a : CtorArgs) (o : ModelObj)
    (h : construct cfg env a = (.error .modelError, o)) :
    o = a.model_obj ∧ o.wrapped = a.model_obj.wrapped ∧
    o.save = a.model_obj.save ∧
    ∀ (cfg2 : WrapperCfg) (env2 : Env) (a2 : CtorArgs),
      construct cfg2 env2 { a2 with model_obj := o } =
        construct cfg2 env2 { a2 with model_obj := a.model_obj } := by
  have ho : o = a.model_obj := by
    simp only [construct] at h
    split at h
    · simp at h
    split at h
    · simp only [Prod.mk.injEq] at h
      exact h.2.symm
    split at h
    · simp only [Prod.mk.injEq] at h
      exact h.2.symm
    split at h
    · simp at h
    rename_i nu hnu
    split at h
    · rename_i e he
      split at he
      · split at he
        · simp only [Except.error.injEq] at he
          subst he
          simp at h
        · simp at he
      · simp at he
    rename_i curl cua hres
    split at h
    · simp at h
    split at h
    · simp at h
    simp at h
  exact ⟨ho, by rw [ho], by rw [ho], fun cfg2 env2 a2 => by rw [ho]⟩

/-- Witness for C10: the wrong-label call on `sObj` leaves it
unchanged. -/
theorem c10_witness : cModelObj = sObj :=
  (c10_model_error_preserves {} sEnv cModelArgs cModelObj (by decide)).1

/-- Counterexample to C5 as stated: a wrapper whose admin history URL
has no reverse match surfaces the framework's `NoReverseMatch`, which
is not the module's `ModelWrapperNoReverseMatch` (that class is defined
at lines 25-26 but never raised in the module). -/
theorem c5_counterexample :
    history_url sEnv sWrap = .error .frameworkNoReverseMatch ∧
    HistoryUrlError.frameworkNoReverseMatch ≠
      HistoryUrlError.modelWrapperNoReverseMatch := by
  exact ⟨by decide, by decide⟩

/-- Claim C5 (amended): when `history_url` must reverse the admin
history URL name and there is no reverse match, the error surfaced is
the framework's `NoReverseMatch`; `ModelWrapperNoReverseMatch` is never
raised. -/
theorem c5_history_url_framework_error (env : Env) (w : Wrapper) (n : Nat)
    (h1 : w.object.id = some n) (h2 : n ≠ 0)
    (h3 : env.reverse (historyUrlName w) [toString n] = none) :
    history_url env w = .error .frameworkNoReverseMatch := by
  simp [history_url, h1, h2, h3]

/-- Witness for the amended C5 at the concrete wrapper `sWrapNC`. -/
theorem c5_witness :
    history_url sEnv sWrapNC = .error .frameworkNoReverseMatch :=
  c5_history_url_framework_error sEnv sWrapNC 5 (by decide) (by decide) rfl

/-- Claim C1 (code bug at line 175): with a cancel URL name configured
and the parser's cancel attrs empty, the cancel entry of the
querystring is the bare cancel URL `"/cancel/"`, which does not begin
with `cancel=` — the constructed querystring is
`next=/next/&/cancel/&`, against the specified
`next=...&cancel=...&...` shape (compare the symmetric `next` branch at
line 162). -/
theorem c1_cancel_entry_missing_key :
    (construct {} sEnv sArgsNextCancel).1 = .ok sWrapNC ∧
    querystringOf sEnv sWrapNC = "next=/next/&/cancel/&" ∧
    nextComponent sEnv sWrapNC = "next=/next/" ∧
    cancelComponents sEnv sWrapNC = ["/cancel/"] ∧
    pyTruthyStrOpt (resolvedCancelName {} sArgsNextCancel) = true ∧
    ∀ t : String, "/cancel/" ≠ "cancel=" ++ t := by
  refine ⟨by decide, by decide, by decide, by decide, by decide, ?_⟩
  intro t h
  obtain ⟨l⟩ := t
  rw [show ("cancel=" ++ (⟨l⟩ : String) : String) =
      ⟨'c' :: 'a' :: 'n' :: 'c' :: 'e' :: 'l' :: '=' :: l⟩ from rfl] at h
  have h2 := congrArg (fun s => s.data.head?) h
  simp at h2
